import Mathlib

/-!
Shallow embedding of `travel_duration_ai_agent.py` for specification checking.

The program is a console chatbot gluing together language-model calls
(validator, destination classifier, location extractor, final composer),
Google-Maps HTTP calls (geocode, nearby search, directions) and a
read-eval loop.  External effects are modelled as oracles collected in an
`Env` record; console input is a list of lines; every externally visible
action is recorded in a trace of `Event`s.  Python exceptions are modelled
by `Except PyErr`; a bare uncaught exception ends the turn/session.
Floating point coordinates are modelled by their rendered decimal strings
(the code only ever interpolates them into f-strings).
-/

namespace TravelAgent

/-- Python exceptions that the program can raise. -/
inductive PyErr : Type where
  | nameError
  | indexError
  | typeError
  | jsonDecodeError
  | exception (msg : String)
deriving DecidableEq, Repr

/-- `str(x)` for an optional string, as Python renders `None` in f-strings. -/
def pyOptStr : Option String → String
  | none => "None"
  | some s => s

/-- Python `str.strip()` (whitespace removed from both ends), computed on
the character list so that concrete runs evaluate inside the kernel. -/
def pyStrip (s : String) : String :=
  ⟨((s.data.dropWhile Char.isWhitespace).reverse.dropWhile
      Char.isWhitespace).reverse⟩

/-- Python `str.lower()` (inputs here are ASCII), computed on the
character list so that concrete runs evaluate inside the kernel. -/
def pyLower (s : String) : String :=
  ⟨s.data.map Char.toLower⟩

/-! ## datetime arithmetic (`datetime`, `timedelta`, `strftime`)

`get_travel_duration` computes `now + timedelta(seconds=value)` and renders
it with `strftime('%Y/%m/%d %H:%M %p')`.  We embed the Gregorian calendar
arithmetic that `timedelta` addition performs. -/

structure DateTime where
  year : Nat
  month : Nat
  day : Nat
  hour : Nat
  minute : Nat
  second : Nat
deriving DecidableEq, Repr

def isLeapYear (y : Nat) : Bool :=
  (y % 4 == 0 && y % 100 != 0) || y % 400 == 0

def daysInMonth (y m : Nat) : Nat :=
  if m == 2 then (if isLeapYear y then 29 else 28)
  else if m == 4 || m == 6 || m == 9 || m == 11 then 30
  else 31

def nextDay (y m d : Nat) : Nat × Nat × Nat :=
  if d < daysInMonth y m then (y, m, d + 1)
  else if m < 12 then (y, m + 1, 1)
  else (y + 1, 1, 1)

def addDays : Nat → Nat → Nat → Nat → Nat × Nat × Nat
  | 0, y, m, d => (y, m, d)
  | n + 1, y, m, d =>
    let p := nextDay y m d
    addDays n p.1 p.2.1 p.2.2

/-- `dt + timedelta(seconds := s)` (durations from the API are nonnegative). -/
def addSeconds (dt : DateTime) (s : Nat) : DateTime :=
  let total := dt.hour * 3600 + dt.minute * 60 + dt.second + s
  let ymd := addDays (total / 86400) dt.year dt.month dt.day
  { year := ymd.1, month := ymd.2.1, day := ymd.2.2
    hour := total % 86400 / 3600
    minute := total % 86400 % 3600 / 60
    second := total % 86400 % 60 }

/-- Zero-pad to two digits, as `%m`, `%d`, `%H`, `%M` do. -/
def pad2 (n : Nat) : String :=
  if n < 10 then "0" ++ toString n else toString n

/-- `strftime('%Y/%m/%d %H:%M %p')`: note `%H` is the 24-hour clock and `%p`
appends the AM/PM marker derived from the hour (C locale). -/
def strftimeEta (dt : DateTime) : String :=
  toString dt.year ++ "/" ++ pad2 dt.month ++ "/" ++ pad2 dt.day ++ " " ++
  pad2 dt.hour ++ ":" ++ pad2 dt.minute ++ " " ++
  (if dt.hour < 12 then "AM" else "PM")

/-! ## Routing backend data (`gmaps.directions` response) -/

/-- One duration dict: `{'text': ..., 'value': seconds}`. -/
structure DurationVal where
  text : String
  value : Nat
deriving DecidableEq, Repr

/-- One leg dict; `.get('duration')` returns `None` when the key is absent. -/
structure Leg where
  duration : Option DurationVal
deriving DecidableEq, Repr

/-- One route dict; `.get('legs')` returns `None` when the key is absent. -/
structure Route where
  legs : Option (List Leg)
deriving DecidableEq, Repr

/-- Trace events: every console read/print, language-model call and HTTP
call the program performs, in order. -/
inductive Event : Type where
  | readLine (line : String)
  | print (text : String)
  | llmValidate (userInput : String)
  | llmClassify (dest : Option String)
  | llmExtract (userInput : String)
  | llmCompose (travelInfo : String)
  | geocodeCall (address : String)
  | searchCall (location keyword : String)
  | directionsCall (origin dest mode : String)
deriving DecidableEq, Repr

/-! ## `get_travel_duration` (lines 82-91)

The `try` block wraps only the `gmaps.directions` call; indexing the result
happens after the `except` clause.  The directions call itself is an input:
either it raised (any exception — network error, malformed input, API
error) or it returned the route list (`ZERO_RESULTS` yields `[]`). -/

def get_travel_duration (now : DateTime)
    (directionsResult : Except Unit (List Route)) :
    List Event × Except PyErr (Option String × Option String) :=
  match directionsResult with
  | .error _ =>
    -- `except: print('Route not found.'); return (None, None)`
    ([.print "Route not found."], .ok (none, none))
  | .ok routes =>
    -- `directions_result[0]` — IndexError on an empty list, uncaught
    match routes with
    | [] => ([], .error .indexError)
    | r :: _ =>
      -- `.get('legs')[0]` — TypeError when 'legs' is absent (None[0])
      match r.legs with
      | none => ([], .error .typeError)
      | some legs =>
        match legs with
        | [] => ([], .error .indexError)
        | leg :: _ =>
          -- `duration_result['text']` — TypeError when 'duration' was absent
          match leg.duration with
          | none => ([], .error .typeError)
          | some d =>
            ([], .ok (some d.text, some (strftimeEta (addSeconds now d.value))))

/-! ## HTTP helpers `get_latlong` (lines 223-233) and `nearby_search`
(lines 207-221).  An `HttpResponse` carries the HTTP status code and the
already-decoded JSON body. -/

structure HttpResponse (α : Type) where
  status_code : Nat
  body : α
deriving DecidableEq, Repr

structure GeoLocation where
  lat : String
  lng : String
deriving DecidableEq, Repr

structure GeoResult where
  location : GeoLocation
deriving DecidableEq, Repr

structure GeoData where
  status : String
  results : List GeoResult
deriving DecidableEq, Repr

structure PlaceResult where
  name : String
  vicinity : String
  location : GeoLocation
deriving DecidableEq, Repr

structure SearchData where
  status : String
  results : List PlaceResult
deriving DecidableEq, Repr

/-- The dict `nearby_search` builds from the first result. -/
structure NearestPlace where
  name : String
  address : String
  location : String
deriving DecidableEq, Repr

def apiFailMsg (code : Nat) : String :=
  "API Request failed with status code: " ++ toString code

/-- `get_latlong`: raises on a non-200 HTTP response; on body status `'OK'`
returns `"lat,lng"` of the first result (IndexError if `results` is empty);
otherwise returns the empty string. -/
def get_latlong (resp : HttpResponse GeoData) : Except PyErr String :=
  if resp.status_code == 200 then
    let data := resp.body
    if data.status == "OK" then
      match data.results with
      | [] => .error .indexError
      | r :: _ => .ok (r.location.lat ++ "," ++ r.location.lng)
    else .ok ""
  else .error (.exception (apiFailMsg resp.status_code))

/-- `nearby_search`: raises on a non-200 HTTP response; on body status
`'OK'` with a nonempty result list returns the first place; otherwise
returns the empty dict (modelled as `none`). -/
def nearby_search (resp : HttpResponse SearchData) :
    Except PyErr (Option NearestPlace) :=
  if resp.status_code == 200 then
    let data := resp.body
    if data.status == "OK" then
      match data.results with
      | nearest :: _ =>
        .ok (some { name := nearest.name, address := nearest.vicinity
                    location := nearest.location.lat ++ "," ++ nearest.location.lng })
      | [] => .ok none
    else .ok none
  else .error (.exception (apiFailMsg resp.status_code))

/-! ## Language-model stage results

`json.loads` of a stage's completion either fails (`.error`, a
`json.JSONDecodeError`) or yields the structured object the prompt asks
for.  Of the classifier's object only the `classification` field is ever
read by the controller, so the oracle returns that label. -/

structure ValidationResult where
  is_valid : Bool
  reason : String
  origin : Option String
  destination : Option String
  has_mode : Bool
deriving DecidableEq, Repr

structure Locations where
  origin : String
  destination : String
  mode : String
deriving DecidableEq, Repr

/-- Oracles for every external effect: the four language-model stages, the
three Google-Maps endpoints, and the clock read by `datetime.now()`. -/
structure Env where
  validator : String → Except Unit ValidationResult
  classifier : Option String → Except Unit String
  extractor : String → Except Unit Locations
  composer : String → String
  geocode : String → HttpResponse GeoData
  search : String → String → HttpResponse SearchData
  directions : String → String → String → Except Unit (List Route)
  now : DateTime

/-! ## `perform_nearby_search` (lines 188-205)

The two failure branches interpolate `validation_result['destination']`
into an f-string, but `validation_result` is a local variable of
`chatbot()` and is bound neither in this function's scope nor at module
level, so evaluating the f-string raises `NameError` before anything is
printed. -/

inductive NearbyOut : Type where
  | ok (newUserInput : String) (needNewInput : Bool) (rest : List String)
  | inputOut
  | raised (e : PyErr)
deriving DecidableEq, Repr

def confirmPrompt (n : NearestPlace) : String :=
  "Chatbot: Did you mean to go to the nearest " ++ n.name ++ " at " ++
  n.address ++ "? (yes/no): "

def declineMsg : String :=
  "Chatbot: I see. Could you please provide a more specific destination?"

def perform_nearby_search (env : Env) (origin destination : Option String)
    (original_user_input : String) (inputs : List String) :
    List Event × NearbyOut :=
  let addr := pyOptStr origin
  let ev0 := [Event.geocodeCall addr]
  match get_latlong (env.geocode addr) with
  | .error e => (ev0, .raised e)
  | .ok origin_latlong =>
    if origin_latlong == "" then
      -- `else:` branch: the f-string references the unbound name
      -- `validation_result`, so NameError is raised before the print
      (ev0, .raised .nameError)
    else
      let kw := pyOptStr destination
      let ev1 := ev0 ++ [Event.searchCall origin_latlong kw]
      match nearby_search (env.search origin_latlong kw) with
      | .error e => (ev1, .raised e)
      | .ok none =>
        -- same unbound `validation_result` reference: NameError
        (ev1, .raised .nameError)
      | .ok (some nearest) =>
        let ev2 := ev1 ++ [Event.print (confirmPrompt nearest)]
        match inputs with
        | [] => (ev2, .inputOut)
        | confirm :: rest =>
          let ev3 := ev2 ++ [Event.readLine confirm]
          -- note: `confirm` is not stripped before the comparison
          if pyLower confirm == "yes" then
            (ev3, .ok (original_user_input ++ " " ++ nearest.name ++ " at " ++
                       nearest.address) false rest)
          else
            (ev3 ++ [Event.print declineMsg], .ok original_user_input true rest)

/-! ## Travel-mode menu loop (lines 165-175) -/

/-- `travel_mode_mapping`, the dict the comprehension
`{str(i+1): mode for i, mode in enumerate([...])}` builds. -/
def travel_mode_mapping : List (String × String) :=
  [("1", "driving"), ("2", "walking"), ("3", "bicycling"), ("4", "transit")]

/-- The menu text: a single f-string containing a literal line
continuation, so the sixteen leading spaces of the second source line are
part of the string, followed by the escaped newline. -/
def menuMsg (dest : Option String) : String :=
  "Chatbot: How do you want to get to " ++ pyOptStr dest ++ "? " ++
  "                " ++ "\n" ++
  "Please enter one of the numbers: 1 driving; 2 walking; 3 bicycling; 4 transit"

/-- The `while travel_mode not in travel_mode_mapping` loop: print the
menu, read a line, repeat until the stripped line is a dict key.  Returns
the accepted token and the remaining console lines, or `none` when the
console lines run out (Python would block / raise EOFError). -/
def modeMenuLoop (dest : Option String) :
    List String → List Event × Option (String × List String)
  | [] => ([Event.print (menuMsg dest)], none)
  | line :: rest =>
    let t := pyStrip line
    if (travel_mode_mapping.lookup t).isSome then
      ([Event.print (menuMsg dest), Event.readLine line], some (t, rest))
    else
      let r := modeMenuLoop dest rest
      (Event.print (menuMsg dest) :: Event.readLine line :: r.1, r.2)

/-! ## `overall_chain` (lines 119-129) as run by the `else` branch

`SequentialChain` re-runs `validate_input_chain` (its completion is carried
as an output string, never parsed here), then `extract_locations_chain`,
then `LocationProcessingChain._call` (which `json.loads` the extractor
completion, reads the three keys, and calls `get_travel_duration`), then
`final_response_chain`. -/

def travelInfoStr (locs : Locations) (duration eta : Option String) : String :=
  "Origin: " ++ locs.origin ++ ", Destination: " ++ locs.destination ++
  ", Mode: " ++ locs.mode ++ ", Duration: " ++ pyOptStr duration ++
  ", ETA: " ++ pyOptStr eta

def overall_chain_run (env : Env) (user_input : String) :
    List Event × Except PyErr String :=
  let ev0 := [Event.llmValidate user_input, Event.llmExtract user_input]
  match env.extractor user_input with
  | .error _ => (ev0, .error .jsonDecodeError)
  | .ok locs =>
    let ev1 := ev0 ++ [Event.directionsCall locs.origin locs.destination locs.mode]
    let r := get_travel_duration env.now
      (env.directions locs.origin locs.destination locs.mode)
    match r.2 with
    | .error e => (ev1 ++ r.1, .error e)
    | .ok pair =>
      let travel_info := travelInfoStr locs pair.1 pair.2
      (ev1 ++ r.1 ++ [Event.llmCompose travel_info],
       .ok (env.composer travel_info))

/-! ## The `chatbot()` loop (lines 139-185) -/

inductive TurnOut : Type where
  /-- `break` after the farewell. -/
  | exited
  /-- `continue` (or loop bottom) with the new `need_new_input`, the stored
  `user_input`, and the remaining console lines. -/
  | next (needNewInput : Bool) (stored : String) (rest : List String)
  /-- `input()` found no more console lines. -/
  | inputOut
  /-- an uncaught exception left the loop. -/
  | raised (e : PyErr)
deriving DecidableEq, Repr

def farewellMsg : String := "Chatbot: Goodbye! Have a great day!"

def rephraseMsg (reason : String) : String :=
  "Chatbot: " ++ reason ++ ". Could you please rephrase your question?"

def exampleMsg : String :=
  "For example: 'How long does it take to drive from New York to Boston?'"

/-- The `if/elif/elif/else` chain of the loop body (lines 160-185), run
after validation and classification both parsed. -/
def chatbot_branch (env : Env) (vr : ValidationResult) (classification : String)
    (need_new_input : Bool) (user_input : String) (inputs1 : List String) :
    List Event × TurnOut :=
  if !vr.is_valid then
    -- re-prompt; `need_new_input` is left unchanged by this branch
    ([Event.print (rephraseMsg vr.reason), Event.print exampleMsg],
     .next need_new_input user_input inputs1)
  else if !vr.has_mode then
    match modeMenuLoop vr.destination inputs1 with
    | (evs, none) => (evs, .inputOut)
    | (evs, some tokRest) =>
      -- `travel_mode_mapping[travel_mode]`: the loop guard guarantees the
      -- key is present, so `getD` never supplies its default
      (evs,
       .next false
         (user_input ++ " travel mode: " ++
           ((travel_mode_mapping.lookup tokRest.1).getD ""))
         tokRest.2)
  else if classification == "general" then
    match perform_nearby_search env vr.origin vr.destination
        user_input inputs1 with
    | (evs, .ok newInput needNew rest) => (evs, .next needNew newInput rest)
    | (evs, .inputOut) => (evs, .inputOut)
    | (evs, .raised e) => (evs, .raised e)
  else
    match overall_chain_run env user_input with
    | (evs, .error e) => (evs, .raised e)
    | (evs, .ok response) =>
      (evs ++ [Event.print ("Chatbot: " ++ response)],
       .next true user_input inputs1)

/-- One iteration of the `while True` loop: read a line if
`need_new_input` (stripping it), check for `exit`, validate, classify
(unconditionally, before the validity branch), then branch. -/
def chatbot_turn (env : Env) (need_new_input : Bool) (stored : String)
    (inputs : List String) : List Event × TurnOut :=
  let read : Option (String × List Event × List String) :=
    if need_new_input then
      match inputs with
      | [] => none
      | s :: rest => some (pyStrip s, [Event.readLine s], rest)
    else some (stored, [], inputs)
  match read with
  | none => ([], .inputOut)
  | some (user_input, ev0, inputs1) =>
    if pyLower user_input == "exit" then
      (ev0 ++ [Event.print farewellMsg], .exited)
    else
      let ev1 := ev0 ++ [Event.llmValidate user_input]
      match env.validator user_input with
      | .error _ => (ev1, .raised .jsonDecodeError)
      | .ok vr =>
        let ev2 := ev1 ++ [Event.llmClassify vr.destination]
        match env.classifier vr.destination with
        | .error _ => (ev2, .raised .jsonDecodeError)
        | .ok classification =>
          let b := chatbot_branch env vr classification need_new_input
            user_input inputs1
          (ev2 ++ b.1, b.2)

/-- Session outcomes of the fuel-indexed loop. -/
inductive Outcome : Type where
  | exited
  | fuelOut
  | inputOut
  | raised (e : PyErr)
deriving DecidableEq, Repr

/-- The `while True` loop, with fuel bounding the number of iterations. -/
def chatbot_loop (env : Env) :
    Nat → Bool → String → List String → List Event × Outcome
  | 0, _, _, _ => ([], .fuelOut)
  | fuel + 1, nn, stored, inputs =>
    match chatbot_turn env nn stored inputs with
    | (evs, .exited) => (evs, .exited)
    | (evs, .inputOut) => (evs, .inputOut)
    | (evs, .raised e) => (evs, .raised e)
    | (evs, .next nn2 stored2 inputs2) =>
      let r := chatbot_loop env fuel nn2 stored2 inputs2
      (evs ++ r.1, r.2)

/-- `chatbot()`: the banner prints, then the loop with
`need_new_input = True`. -/
def chatbot (env : Env) (fuel : Nat) (inputs : List String) :
    List Event × Outcome :=
  let banner :=
    [Event.print "\n\n\n\n\n\n\n\n\n\n\n\n\n\n\n\n\n\n\n\n\n\n\n\n\n\n\n",
     Event.print "Welcome to the Travel Duration Chatbot!",
     Event.print "Ask me about travel durations between locations.",
     Event.print "Type 'exit' to end the conversation."]
  let r := chatbot_loop env fuel true "" inputs
  (banner ++ r.1, r.2)

/-! ## Trace helpers -/

/-- Recognizes geocode-call events, for counting. -/
def isGeocodeEvent : Event → Bool
  | .geocodeCall _ => true
  | _ => false

/-- Recognizes nearby-search-call events, for counting. -/
def isSearchEvent : Event → Bool
  | .searchCall _ _ => true
  | _ => false

/-- The events of the menu loop while it rejects a run of malformed
responses: one menu print and one echo per rejected line. -/
def menuEchoEvents (dest : Option String) : List String → List Event
  | [] => []
  | b :: bs =>
    Event.print (menuMsg dest) :: Event.readLine b :: menuEchoEvents dest bs

/-! ## Concrete fixtures used by witnesses and counterexamples -/

/-- The issue time 2024-01-01 09:00:00 of the spec's round-trip example. -/
def dt2024 : DateTime := ⟨2024, 1, 1, 9, 0, 0⟩

/-- A directions response with a single route whose first leg reports one
hour (3600 seconds). -/
def route3600 : Route := ⟨some [⟨some ⟨"1 hour", 3600⟩⟩]⟩

/-! ## C1: ETA of `get_travel_duration` -/

/-- C1 (amended): on every successful routing call, the returned ETA is
the issue time plus the reported duration in seconds, rendered by
`strftime('%Y/%m/%d %H:%M %p')` — a 24-hour clock hour with an AM/PM
marker appended. -/
theorem c1_eta_formula (now : DateTime) (r : Route) (rs : List Route)
    (l : Leg) (ls : List Leg) (d : DurationVal)
    (hlegs : r.legs = some (l :: ls)) (hdur : l.duration = some d) :
    (get_travel_duration now (.ok (r :: rs))).2 =
      .ok (some d.text, some (strftimeEta (addSeconds now d.value))) := by
  simp [get_travel_duration, hlegs, hdur]

/-- C1 witness: for duration 3600 s issued at 2024-01-01 09:00 the call
returns the duration text and the rendered ETA `2024/01/01 10:00 AM`. -/
theorem c1_eta_formula_witness :
    (get_travel_duration dt2024 (.ok [route3600])).2 =
      .ok (some "1 hour", some "2024/01/01 10:00 AM") := by
  have h := c1_eta_formula dt2024 route3600 [] ⟨some ⟨"1 hour", 3600⟩⟩ []
    ⟨"1 hour", 3600⟩ rfl rfl
  exact h.trans rfl

/-- C1 counterexample: at duration 3600 s and issue time 2024-01-01 09:00
the rendered ETA string is `2024/01/01 10:00 AM`, not `2024/01/01 10:00`
as the claim's example states (the format appends the AM/PM marker). -/
theorem c1_eta_example_rendering :
    (get_travel_duration dt2024 (.ok [route3600])).2 =
      .ok (some "1 hour", some "2024/01/01 10:00 AM") ∧
    "2024/01/01 10:00 AM" ≠ "2024/01/01 10:00" := by
  refine ⟨rfl, by decide⟩

/-! ## C2: failure handling of `get_travel_duration` -/

/-- C2 (amended): an exception raised by the routing request itself
(network error, malformed input, backend error) is swallowed to
`(None, None)`; but a request that succeeds with zero results is NOT — the
indexing of the empty route list happens outside the `try` block and
raises an uncaught IndexError. -/
theorem c2_request_errors_swallowed (now : DateTime) :
    (get_travel_duration now (.error ())).2 = .ok (none, none) ∧
    (get_travel_duration now (.ok [])).2 = .error .indexError :=
  ⟨rfl, rfl⟩

/-- C2 counterexample: a successful routing response with zero results
makes `get_travel_duration` raise IndexError instead of returning
`(None, None)`. -/
theorem c2_zero_results_raises :
    (get_travel_duration dt2024 (.ok [])).2 = .error .indexError ∧
    (get_travel_duration dt2024 (.ok [])).2 ≠ .ok (none, none) := by
  refine ⟨rfl, ?_⟩
  intro h
  simp [get_travel_duration] at h

/-! ## C8: both-or-neither null invariant -/

/-- C8: every pair `get_travel_duration` returns (as opposed to raising)
has the duration text and the ETA both null or both non-null. -/
theorem c8_both_or_neither (now : DateTime) (dirs : Except Unit (List Route))
    (p : Option String × Option String)
    (h : (get_travel_duration now dirs).2 = .ok p) :
    (p.1 = none ↔ p.2 = none) := by
  cases dirs with
  | error u =>
    simp [get_travel_duration] at h
    simp [← h]
  | ok routes =>
    cases routes with
    | nil => simp [get_travel_duration] at h
    | cons r rs =>
      cases hlegs : r.legs with
      | none => simp [get_travel_duration, hlegs] at h
      | some legs =>
        cases legs with
        | nil => simp [get_travel_duration, hlegs] at h
        | cons leg more =>
          cases hdur : leg.duration with
          | none => simp [get_travel_duration, hlegs, hdur] at h
          | some d =>
            simp [get_travel_duration, hlegs, hdur] at h
            simp [← h]

/-- C8 witness: at a concrete successful call both components are
non-null. -/
theorem c8_both_or_neither_witness :
    ((some "1 hour" : Option String) = none ↔
      (some "2024/01/01 10:00 AM" : Option String) = none) :=
  c8_both_or_neither dt2024 (.ok [route3600])
    (some "1 hour", some "2024/01/01 10:00 AM") rfl

/-- An all-default environment; specialised per test scenario. -/
def envBase : Env where
  validator := fun _ => .error ()
  classifier := fun _ => .error ()
  extractor := fun _ => .error ()
  composer := fun _ => ""
  geocode := fun _ => ⟨200, ⟨"ZERO_RESULTS", []⟩⟩
  search := fun _ _ => ⟨200, ⟨"ZERO_RESULTS", []⟩⟩
  directions := fun _ _ _ => .error ()
  now := dt2024

/-- A 200 geocode response whose body status is not `OK`. -/
def deniedGeoResp : HttpResponse GeoData := ⟨200, ⟨"REQUEST_DENIED", []⟩⟩

/-- A 200 nearby-search response whose body status is not `OK`. -/
def deniedSearchResp : HttpResponse SearchData := ⟨200, ⟨"REQUEST_DENIED", []⟩⟩

/-! ## C7: status handling of `get_latlong` and `nearby_search` -/

/-- C7 (amended): the two helpers handle statuses symmetrically, at both
levels.  A non-200 HTTP response makes BOTH raise an uncaught exception; a
200 response whose body status is not `'OK'` makes BOTH return silently
empty (empty coordinate string / empty dict). -/
theorem c7_status_handling (g : HttpResponse GeoData) (s : HttpResponse SearchData) :
    (g.status_code ≠ 200 →
      get_latlong g = .error (.exception (apiFailMsg g.status_code))) ∧
    (s.status_code ≠ 200 →
      nearby_search s = .error (.exception (apiFailMsg s.status_code))) ∧
    (g.status_code = 200 → g.body.status ≠ "OK" → get_latlong g = .ok "") ∧
    (s.status_code = 200 → s.body.status ≠ "OK" → nearby_search s = .ok none) := by
  refine ⟨fun h => ?_, fun h => ?_, fun h hs => ?_, fun h hs => ?_⟩
  · simp [get_latlong, h]
  · simp [nearby_search, h]
  · simp [get_latlong, h, hs]
  · simp [nearby_search, h, hs]

/-- C7 witness: a 404 geocode response raises; a 200 nearby-search
response with body status `ZERO_RESULTS` yields the empty dict. -/
theorem c7_status_handling_witness :
    get_latlong ⟨404, ⟨"OK", []⟩⟩ =
      .error (.exception (apiFailMsg 404)) ∧
    nearby_search ⟨200, ⟨"ZERO_RESULTS", []⟩⟩ = .ok none :=
  ⟨(c7_status_handling ⟨404, ⟨"OK", []⟩⟩ ⟨200, ⟨"ZERO_RESULTS", []⟩⟩).1 (by decide),
   (c7_status_handling ⟨404, ⟨"OK", []⟩⟩ ⟨200, ⟨"ZERO_RESULTS", []⟩⟩).2.2.2 rfl
     (by decide)⟩

/-- C7 counterexample: a nearby-search response whose provider status is
non-OK does NOT raise — it returns the empty dict, exactly as the geocoder
returns empty coordinates; and a non-200 geocode response raises just as
the search does.  There is no asymmetry. -/
theorem c7_no_asymmetry :
    deniedSearchResp.body.status ≠ "OK" ∧
    nearby_search deniedSearchResp = .ok none ∧
    deniedGeoResp.body.status ≠ "OK" ∧
    get_latlong deniedGeoResp = .ok "" ∧
    get_latlong ⟨500, ⟨"OK", []⟩⟩ = .error (.exception (apiFailMsg 500)) ∧
    nearby_search ⟨500, ⟨"OK", []⟩⟩ = .error (.exception (apiFailMsg 500)) :=
  ⟨by decide, rfl, by decide, rfl, rfl, rfl⟩

/-! ## C10: the unbound `validation_result` in `perform_nearby_search` -/

/-- C10: referencing the unbound name `validation_result` makes both
failure branches of `perform_nearby_search` raise NameError (with nothing
printed and nothing returned); only the branch that finds a nearby place
completes without error. -/
theorem c10_unbound_name (env : Env) (origin destination : Option String)
    (u : String) (ins : List String) :
    (get_latlong (env.geocode (pyOptStr origin)) = .ok "" →
      perform_nearby_search env origin destination u ins =
        ([Event.geocodeCall (pyOptStr origin)], .raised .nameError)) ∧
    (∀ lat, get_latlong (env.geocode (pyOptStr origin)) = .ok lat → lat ≠ "" →
      nearby_search (env.search lat (pyOptStr destination)) = .ok none →
      perform_nearby_search env origin destination u ins =
        ([Event.geocodeCall (pyOptStr origin),
          Event.searchCall lat (pyOptStr destination)], .raised .nameError)) ∧
    (∀ lat n c rest,
      get_latlong (env.geocode (pyOptStr origin)) = .ok lat → lat ≠ "" →
      nearby_search (env.search lat (pyOptStr destination)) = .ok (some n) →
      ins = c :: rest →
      ∀ e : PyErr,
        (perform_nearby_search env origin destination u ins).2 ≠ .raised e) := by
  refine ⟨fun hg => ?_, fun lat hg hlat hs => ?_, fun lat n c rest hg hlat hs hins e => ?_⟩
  · simp [perform_nearby_search, hg]
  · simp [perform_nearby_search, hg, hlat, hs]
  · subst hins
    by_cases hy : pyLower c == "yes" <;>
      simp [perform_nearby_search, hg, hlat, hs, hy]

/-- C10 witness: with the geocoder reporting `ZERO_RESULTS` (so empty
coordinates), the resolver raises NameError after its single geocode
call. -/
theorem c10_unbound_name_witness :
    perform_nearby_search envBase none none "q" [] =
      ([Event.geocodeCall "None"], .raised .nameError) :=
  (c10_unbound_name envBase none none "q" []).1 rfl

/-! ## C5: one geocode + one nearby search per general-destination turn -/

/-- C5 (amended): on a turn whose destination classifies as general, when
geocoding returns non-empty coordinates and the search finds a place, the
resolver performs exactly one geocode call and exactly one nearby-search
call, and then either augments the stored input with the confirmed place's
name and address (reprocessing, no fresh read) on a `yes`, or prints the
more-specific-destination prompt and requires a fresh read on any other
response. -/
theorem c5_one_geocode_one_search (env : Env) (o d : Option String)
    (u : String) (ins : List String) (lat : String) (n : NearestPlace)
    (c : String) (rest : List String)
    (hg : get_latlong (env.geocode (pyOptStr o)) = .ok lat)
    (hlat : lat ≠ "")
    (hs : nearby_search (env.search lat (pyOptStr d)) = .ok (some n))
    (hins : ins = c :: rest) :
    (perform_nearby_search env o d u ins).1.countP isGeocodeEvent = 1 ∧
    (perform_nearby_search env o d u ins).1.countP isSearchEvent = 1 ∧
    (pyLower c = "yes" →
      perform_nearby_search env o d u ins =
        ([Event.geocodeCall (pyOptStr o), Event.searchCall lat (pyOptStr d),
          Event.print (confirmPrompt n), Event.readLine c],
         .ok (u ++ " " ++ n.name ++ " at " ++ n.address) false rest)) ∧
    (pyLower c ≠ "yes" →
      perform_nearby_search env o d u ins =
        ([Event.geocodeCall (pyOptStr o), Event.searchCall lat (pyOptStr d),
          Event.print (confirmPrompt n), Event.readLine c,
          Event.print declineMsg],
         .ok u true rest)) := by
  subst hins
  by_cases hy : pyLower c = "yes"
  · refine ⟨?_, ?_, fun _ => ?_, fun hny => absurd hy hny⟩ <;>
      simp [perform_nearby_search, hg, hlat, hs, hy, List.countP_cons,
        isGeocodeEvent, isSearchEvent]
  · have hy' : (pyLower c == "yes") = false := by
      simpa using hy
    refine ⟨?_, ?_, fun hc => absurd hc hy, fun _ => ?_⟩ <;>
      simp [perform_nearby_search, hg, hlat, hs, hy', List.countP_cons,
        isGeocodeEvent, isSearchEvent]

/-- The one nearby place of the confirmation fixtures. -/
def wPlace : NearestPlace := ⟨"Walgreens", "135 Powell St", "37.786,-122.408"⟩

/-- An environment whose geocoder finds coordinates and whose search finds
`wPlace`. -/
def envFound : Env :=
  { envBase with
    geocode := fun _ => ⟨200, ⟨"OK", [⟨⟨"37.79", "-122.39"⟩⟩]⟩⟩
    search := fun _ _ => ⟨200, ⟨"OK", [⟨"Walgreens", "135 Powell St",
      ⟨"37.786", "-122.408"⟩⟩]⟩⟩ }

/-- C5 witness: a confirmed match augments the input after exactly one
geocode and one search call. -/
theorem c5_one_geocode_one_search_witness :
    perform_nearby_search envFound (some "1 Market St") (some "Walgreens")
        "q" ["yes"] =
      ([Event.geocodeCall "1 Market St",
        Event.searchCall "37.79,-122.39" "Walgreens",
        Event.print (confirmPrompt wPlace), Event.readLine "yes"],
       .ok "q Walgreens at 135 Powell St" false []) := by
  have h := c5_one_geocode_one_search envFound (some "1 Market St")
    (some "Walgreens") "q" ["yes"] "37.79,-122.39" wPlace "yes" []
    rfl (by decide) rfl rfl
  exact (h.2.2.1 (by decide)).trans rfl

/-- An environment for a general-destination turn whose geocoding comes
back empty: validator accepts `to walgreens` without mode issues, the
classifier says `general`, the geocoder reports `ZERO_RESULTS`. -/
def envC5 : Env :=
  { envBase with
    validator := fun s =>
      if s == "to walgreens" then
        .ok ⟨true, "", some "office", some "Walgreens", true⟩
      else .error ()
    classifier := fun _ => .ok "general" }

/-- C5 counterexample: on a general-destination turn whose geocoding
yields empty coordinates, NO nearby-search call is performed (zero, not
exactly one) and the turn ends in NameError rather than augmenting the
input or printing the more-specific-destination prompt. -/
theorem c5_geocode_failure_skips_search :
    chatbot_turn envC5 true "" ["to walgreens"] =
      ([Event.readLine "to walgreens", Event.llmValidate "to walgreens",
        Event.llmClassify (some "Walgreens"), Event.geocodeCall "office"],
       .raised .nameError) ∧
    (chatbot_turn envC5 true "" ["to walgreens"]).1.countP isSearchEvent = 0 := by
  refine ⟨by decide, by decide⟩

/-! ## C4: the travel-mode menu loop -/

/-- The menu loop rejects every malformed response (re-printing the menu
each time) and accepts the first line whose stripped text is one of the
four numeric tokens. -/
lemma modeMenuLoop_run (dest : Option String) (bads : List String)
    (good : String) (rest : List String)
    (hbad : ∀ b ∈ bads, travel_mode_mapping.lookup (pyStrip b) = none)
    (hgood : (travel_mode_mapping.lookup (pyStrip good)).isSome = true) :
    modeMenuLoop dest (bads ++ good :: rest) =
      (menuEchoEvents dest bads ++
        [Event.print (menuMsg dest), Event.readLine good],
       some (pyStrip good, rest)) := by
  induction bads with
  | nil => simp [modeMenuLoop, hgood, menuEchoEvents]
  | cons b bs ih =>
    have hb : travel_mode_mapping.lookup (pyStrip b) = none :=
      hbad b (List.mem_cons_self b bs)
    have ih' := ih fun x hx => hbad x (List.mem_cons_of_mem b hx)
    simp [modeMenuLoop, hb, menuEchoEvents, ih']

/-- C4: on a valid turn lacking a mode, the controller loops on the menu —
printing it once more for each malformed response — until one of the four
numeric tokens is entered, appends exactly the corresponding mode word to
the stored input, and continues with `need_new_input = False` so the next
iteration reprocesses the augmented text without reading new input. -/
theorem c4_mode_menu (env : Env) (s : String) (bads : List String)
    (good w : String) (rest : List String) (vr : ValidationResult)
    (cls : String)
    (hexit : pyLower (pyStrip s) ≠ "exit")
    (hv : env.validator (pyStrip s) = .ok vr)
    (hc : env.classifier vr.destination = .ok cls)
    (hvalid : vr.is_valid = true) (hmode : vr.has_mode = false)
    (hbad : ∀ b ∈ bads, travel_mode_mapping.lookup (pyStrip b) = none)
    (hgood : travel_mode_mapping.lookup (pyStrip good) = some w) :
    chatbot_turn env true "" (s :: (bads ++ good :: rest)) =
      (Event.readLine s :: Event.llmValidate (pyStrip s) ::
        Event.llmClassify vr.destination ::
        (menuEchoEvents vr.destination bads ++
          [Event.print (menuMsg vr.destination), Event.readLine good]),
       .next false (pyStrip s ++ " travel mode: " ++ w) rest) := by
  have hrun := modeMenuLoop_run vr.destination bads good rest hbad
    (by simp [hgood])
  have hexit' : (pyLower (pyStrip s) == "exit") = false := by
    simpa using hexit
  simp [chatbot_turn, hexit', hv, hc, chatbot_branch, hvalid, hmode, hrun,
    hgood]

/-- An environment whose validator accepts `q` as a valid query with no
mode and whose classifier answers `specific`. -/
def envNoMode : Env :=
  { envBase with
    validator := fun s =>
      if s == "q" then .ok ⟨true, "", some "New York", some "Boston", false⟩
      else .error ()
    classifier := fun _ => .ok "specific" }

/-- C4 witness: two malformed menu responses re-display the menu, then
token `3` resolves to `bicycling`, which is appended to the stored input
and reprocessed without a fresh read. -/
theorem c4_mode_menu_witness :
    chatbot_turn envNoMode true "" ["q", "0", "x", "3"] =
      ([Event.readLine "q", Event.llmValidate "q",
        Event.llmClassify (some "Boston"),
        Event.print (menuMsg (some "Boston")), Event.readLine "0",
        Event.print (menuMsg (some "Boston")), Event.readLine "x",
        Event.print (menuMsg (some "Boston")), Event.readLine "3"],
       .next false "q travel mode: bicycling" []) := by
  have h := c4_mode_menu envNoMode "q" ["0", "x"] "3" "bicycling" []
    ⟨true, "", some "New York", some "Boston", false⟩ "specific"
    (by decide) rfl rfl rfl rfl (by decide) (by decide)
  exact h.trans (by decide)

/-! ## C6: the classifier runs unconditionally, before the validity branch -/

/-- C6: on every turn not terminated by the exit command whose validator
completion parses, the trace begins with the validator call immediately
followed by the classifier call on the validation result's destination
field — with no hypothesis on `is_valid` or on the destination being
non-null, and before any event of the validity branches.  Both the
fresh-read and the reprocessing case are covered. -/
theorem c6_classifier_unconditional (env : Env) (stored s : String)
    (rest : List String) (vr : ValidationResult) :
    (pyLower (pyStrip s) ≠ "exit" → env.validator (pyStrip s) = .ok vr →
      ∃ tail, (chatbot_turn env true stored (s :: rest)).1 =
        Event.readLine s :: Event.llmValidate (pyStrip s) ::
          Event.llmClassify vr.destination :: tail) ∧
    (pyLower stored ≠ "exit" → env.validator stored = .ok vr →
      ∃ tail, (chatbot_turn env false stored rest).1 =
        Event.llmValidate stored :: Event.llmClassify vr.destination :: tail) := by
  constructor
  · intro hexit hv
    have hexit' : (pyLower (pyStrip s) == "exit") = false := by simpa using hexit
    cases hc : env.classifier vr.destination with
    | error u => exact ⟨[], by simp [chatbot_turn, hexit', hv, hc]⟩
    | ok cls =>
      exact ⟨(chatbot_branch env vr cls true (pyStrip s) rest).1,
        by simp [chatbot_turn, hexit', hv, hc]⟩
  · intro hexit hv
    have hexit' : (pyLower stored == "exit") = false := by simpa using hexit
    cases hc : env.classifier vr.destination with
    | error u => exact ⟨[], by simp [chatbot_turn, hexit', hv, hc]⟩
    | ok cls =>
      exact ⟨(chatbot_branch env vr cls false stored rest).1,
        by simp [chatbot_turn, hexit', hv, hc]⟩

/-- An environment whose validator rejects every input with a null
destination. -/
def envInvalid : Env :=
  { envBase with
    validator := fun _ => .ok ⟨false, "Missing origin", none, none, false⟩
    classifier := fun _ => .ok "general" }

/-- C6 witness: even on a turn whose validation failed with a null
destination, the classifier is invoked on that null destination right
after validation. -/
theorem c6_classifier_unconditional_witness :
    ∃ tail, (chatbot_turn envInvalid true "" ["hello"]).1 =
      Event.readLine "hello" :: Event.llmValidate "hello" ::
        Event.llmClassify none :: tail :=
  (c6_classifier_unconditional envInvalid "" "hello" []
    ⟨false, "Missing origin", none, none, false⟩).1 (by decide) rfl

/-! ## C9: unparseable completions are fatal to the turn -/

/-- C9: when the validator's or the classifier's completion cannot be
parsed as the expected JSON structure, the turn raises the decode error:
the trace stops at the failed stage — no retry, no rephrase prompt — and
the session loop propagates the error as its outcome. -/
theorem c9_parse_failure_fatal (env : Env) (stored s : String)
    (rest : List String)
    (hexit : pyLower (pyStrip s) ≠ "exit") :
    (env.validator (pyStrip s) = .error () →
      chatbot_turn env true stored (s :: rest) =
        ([Event.readLine s, Event.llmValidate (pyStrip s)],
         .raised .jsonDecodeError)) ∧
    (∀ vr, env.validator (pyStrip s) = .ok vr →
      env.classifier vr.destination = .error () →
      chatbot_turn env true stored (s :: rest) =
        ([Event.readLine s, Event.llmValidate (pyStrip s),
          Event.llmClassify vr.destination],
         .raised .jsonDecodeError)) ∧
    (∀ fuel evs,
      chatbot_turn env true stored (s :: rest) =
        (evs, .raised .jsonDecodeError) →
      chatbot_loop env (fuel + 1) true stored (s :: rest) =
        (evs, .raised .jsonDecodeError)) := by
  have hexit' : (pyLower (pyStrip s) == "exit") = false := by simpa using hexit
  refine ⟨fun hv => ?_, fun vr hv hc => ?_, fun fuel evs h => ?_⟩
  · simp [chatbot_turn, hexit', hv]
  · simp [chatbot_turn, hexit', hv, hc]
  · simp [chatbot_loop, h]

/-- C9 witness: with `envBase` (whose validator oracle never parses), the
first turn dies with the decode error and so does the session. -/
theorem c9_parse_failure_fatal_witness :
    chatbot_turn envBase true "" ["hi"] =
      ([Event.readLine "hi", Event.llmValidate "hi"],
       .raised .jsonDecodeError) ∧
    chatbot_loop envBase 5 true "" ["hi"] =
      ([Event.readLine "hi", Event.llmValidate "hi"],
       .raised .jsonDecodeError) := by
  have h := c9_parse_failure_fatal envBase "" "hi" [] (by decide)
  have h1 := h.1 rfl
  exact ⟨h1, h.2.2 4 _ h1⟩

/-! ## C3: where the exit command actually works -/

/-- C3 (amended): the literal command `exit` (case-insensitive, after
stripping) terminates the session immediately with the fixed farewell and
no further stage ONLY at the main input prompt.  At the travel-mode menu
prompt it is just another malformed menu response (the menu is re-printed
and the loop continues), and at the nearby-place confirmation prompt it is
treated as a decline (the more-specific-destination prompt is printed and
a fresh read is required); in neither case does the session terminate. -/
theorem c3_exit_only_main_prompt :
    (∀ (env : Env) (stored s : String) (rest : List String),
      pyLower (pyStrip s) = "exit" →
      chatbot_turn env true stored (s :: rest) =
        ([Event.readLine s, Event.print farewellMsg], .exited)) ∧
    (∀ (dest : Option String) (rest : List String),
      modeMenuLoop dest ("exit" :: rest) =
        (Event.print (menuMsg dest) :: Event.readLine "exit" ::
          (modeMenuLoop dest rest).1,
         (modeMenuLoop dest rest).2)) ∧
    (∀ (env : Env) (o d : Option String) (u : String) (rest : List String)
        (lat : String) (n : NearestPlace),
      get_latlong (env.geocode (pyOptStr o)) = .ok lat → lat ≠ "" →
      nearby_search (env.search lat (pyOptStr d)) = .ok (some n) →
      perform_nearby_search env o d u ("exit" :: rest) =
        ([Event.geocodeCall (pyOptStr o), Event.searchCall lat (pyOptStr d),
          Event.print (confirmPrompt n), Event.readLine "exit",
          Event.print declineMsg],
         .ok u true rest)) := by
  refine ⟨fun env stored s rest h => ?_, fun dest rest => ?_,
    fun env o d u rest lat n hg hlat hs => ?_⟩
  · have h' : (pyLower (pyStrip s) == "exit") = true := by simpa using h
    simp [chatbot_turn, h']
  · have hnk : (travel_mode_mapping.lookup (pyStrip "exit")).isSome = false := by
      decide
    simp [modeMenuLoop, hnk]
  · have hno : (pyLower "exit" == "yes") = false := by decide
    simp [perform_nearby_search, hg, hlat, hs, hno]

/-- C3 witness: `Exit ` (stripped, lowercased) ends the session at the
main prompt with nothing but the farewell; `exit` at the menu prompt
re-displays the menu; `exit` at the confirmation prompt is a decline. -/
theorem c3_exit_only_main_prompt_witness :
    chatbot_turn envBase true "" ["Exit "] =
      ([Event.readLine "Exit ", Event.print farewellMsg], .exited) ∧
    modeMenuLoop (some "Boston") ["exit"] =
      ([Event.print (menuMsg (some "Boston")), Event.readLine "exit",
        Event.print (menuMsg (some "Boston"))], none) ∧
    perform_nearby_search envFound (some "1 Market St") (some "Walgreens")
        "q" ["exit"] =
      ([Event.geocodeCall "1 Market St",
        Event.searchCall "37.79,-122.39" "Walgreens",
        Event.print (confirmPrompt wPlace), Event.readLine "exit",
        Event.print declineMsg],
       .ok "q" true []) := by
  refine ⟨c3_exit_only_main_prompt.1 envBase "" "Exit " [] (by decide),
    (c3_exit_only_main_prompt.2.1 (some "Boston") []).trans (by decide),
    c3_exit_only_main_prompt.2.2 envFound (some "1 Market St")
      (some "Walgreens") "q" [] "37.79,-122.39" wPlace rfl (by decide) rfl⟩

/-- Validation result for the counterexample query before the mode is
appended. -/
def vrC3NoMode : ValidationResult :=
  ⟨true, "", some "New York", some "Boston", false⟩

/-- Validation result once ` travel mode: driving` has been appended. -/
def vrC3Mode : ValidationResult :=
  ⟨true, "", some "New York", some "Boston", true⟩

/-- Deterministic environment for a full session: `q` is valid but lacks
a mode; the augmented input is valid with a mode and a specific
destination; routing reports one hour. -/
def envC3 : Env :=
  { envBase with
    validator := fun s =>
      if s == "q" then .ok vrC3NoMode
      else if s == "q travel mode: driving" then .ok vrC3Mode
      else .error ()
    classifier := fun _ => .ok "specific"
    extractor := fun s =>
      if s == "q travel mode: driving" then
        .ok ⟨"New York", "Boston", "driving"⟩
      else .error ()
    composer := fun _ => "It takes about 1 hour."
    directions := fun _ _ _ => .ok [route3600] }

/-- C3 counterexample: the user types `exit` at the travel-mode menu
prompt, yet the session does not terminate and no farewell is printed —
the menu is simply re-displayed, the next token `1` resolves the mode,
and the extractor, duration service and composer stages all still run. -/
theorem c3_menu_exit_not_terminating :
    chatbot_loop envC3 3 true "" ["q", "exit", "1"] =
      ([Event.readLine "q", Event.llmValidate "q",
        Event.llmClassify (some "Boston"),
        Event.print (menuMsg (some "Boston")), Event.readLine "exit",
        Event.print (menuMsg (some "Boston")), Event.readLine "1",
        Event.llmValidate "q travel mode: driving",
        Event.llmClassify (some "Boston"),
        Event.llmValidate "q travel mode: driving",
        Event.llmExtract "q travel mode: driving",
        Event.directionsCall "New York" "Boston" "driving",
        Event.llmCompose ("Origin: New York, Destination: Boston, " ++
          "Mode: driving, Duration: 1 hour, ETA: 2024/01/01 10:00 AM"),
        Event.print "Chatbot: It takes about 1 hour."],
       Outcome.inputOut) ∧
    Event.print farewellMsg ∉ (chatbot_loop envC3 3 true "" ["q", "exit", "1"]).1 := by
  refine ⟨by decide, by decide⟩

end TravelAgent
